import Mathlib

/-!
Verification of the error-classification / retry subsystem of the
`pkg/openrouter` Go package (file `client.go`): the error classifier
`categorizeError`, the structured-error constructors `ParseError`,
`WrapNetworkError`, the HTTP response handler `doRequest`, and the retry
executor `WithRetry` with its backoff schedule `calculateDelay`.

Conventions of the shallow embedding:
- Go `time.Duration` values are `Int` nanoseconds.
- Go `float64` arithmetic (`calculateDelay`) is modelled over `ℚ`; the final
  `time.Duration(delay)` conversion truncates toward zero (`ratTrunc`).
- HTTP headers are an association list; `headerGet` models `http.Header.Get`
  for keys already in canonical form (as `Retry-After` is in the source).
- The outcome of `encoding/json.Unmarshal(body, &ErrorResponse)` is carried
  alongside the raw body as an `Option ErrorResponse` oracle: `none` models a
  body that is not a JSON object, `some e` models a successful decode to `e`.
-/

/-- ASCII lowercasing of one character.  Models the effect of Go
`strings.ToLower` on the ASCII inputs this package compares against. -/
def charToLower (c : Char) : Char :=
  if 'A' ≤ c ∧ c ≤ 'Z' then Char.ofNat (c.toNat + 32) else c

/-- Model of Go `strings.ToLower` (ASCII range). -/
def strToLower (s : String) : String :=
  String.mk (s.data.map charToLower)

/-- Model of Go `strings.Contains` on lists of characters: `sub` occurs in
the scanned list (the empty `sub` always occurs). -/
def containsAux (sub : List Char) : List Char → Bool
  | [] => sub.isPrefixOf ([] : List Char)
  | c :: cs => sub.isPrefixOf (c :: cs) || containsAux sub cs

/-- Model of Go `strings.Contains s sub`. -/
def strContains (s sub : String) : Bool :=
  containsAux sub.toList s.toList

/-- Accumulate decimal digits; fails on any non-digit character.  Models the
digit loop of Go `strconv.Atoi`. -/
def parseDigitsAux : List Char → Nat → Option Nat
  | [], acc => some acc
  | c :: cs, acc =>
    if c.isDigit then parseDigitsAux cs (10 * acc + (c.toNat - 48)) else none

/-- Model of Go `strconv.Atoi` (that is, `ParseInt(s, 10, 0)` with `int` =
int64): an optional sign followed by at least one decimal digit and nothing
else, failing when the value falls outside the int64 range
`[-2^63, 2^63 - 1]` (Go reports `ErrRange` then, and the caller only checks
`err == nil`). -/
def Atoi (s : String) : Option Int :=
  match s.toList with
  | [] => none
  | '-' :: cs =>
    match cs with
    | [] => none
    | _ :: _ =>
      match parseDigitsAux cs 0 with
      | some n =>
        if (n : Int) ≤ 9223372036854775808 then some (-(n : Int)) else none
      | none => none
  | '+' :: cs =>
    match cs with
    | [] => none
    | _ :: _ =>
      match parseDigitsAux cs 0 with
      | some n =>
        if (n : Int) ≤ 9223372036854775807 then some ((n : Int)) else none
      | none => none
  | cs =>
    match parseDigitsAux cs 0 with
    | some n =>
      if (n : Int) ≤ 9223372036854775807 then some ((n : Int)) else none
    | none => none

/-- HTTP response headers, as an association list of key/value pairs. -/
abbrev Headers : Type := List (String × String)

/-- Model of Go `http.Header.Get`: first value stored under the key, or the
empty string.  The source only ever looks up the canonical key
`"Retry-After"`, so canonicalisation is not modelled. -/
def headerGet (h : Headers) (key : String) : String :=
  match List.lookup key h with
  | some v => v
  | none => ""

/-- The triple returned by Go `categorizeError`:
`(isRetryable bool, userMessage string, retryAfter time.Duration)`. -/
structure Classified where
  isRetryable : Bool
  userMessage : String
  retryAfter : Int
deriving DecidableEq, Repr

/-- Two's-complement wrap-around to int64, as Go arithmetic on
`time.Duration` (an int64) overflows. -/
def wrap64 (x : Int) : Int :=
  (x + 9223372036854775808) % 18446744073709551616 - 9223372036854775808

/-- The `Retry-After` computation of the 429 arm of `categorizeError`:
`retryAfter` starts at zero, is set to
`time.Duration(seconds) * time.Second` (int64 arithmetic, so the product
wraps) when the header is present and `strconv.Atoi` parses it, and is
replaced by 60s when it is still zero. -/
def retryAfter429 (headers : Headers) : Int :=
  let hv := headerGet headers "Retry-After"
  let ra0 : Int :=
    if hv ≠ "" then
      match Atoi hv with
      | some seconds => wrap64 (seconds * 1000000000)
      | none => 0
    else 0
  if ra0 = 0 then 60000000000 else ra0

/-- The status-code `switch` of Go `categorizeError` (everything before the
error-type override `switch`). -/
def statusTable (statusCode : Nat) (errorCode : String) (headers : Headers) :
    Classified :=
  if statusCode = 401 then
    ⟨false, "Authentication failed. Please check your OpenRouter API key.", 0⟩
  else if statusCode = 403 then
    ⟨false,
      if strContains (strToLower errorCode) "insufficient" ||
          strContains (strToLower errorCode) "credit" ||
          strContains (strToLower errorCode) "balance" then
        "Insufficient credits. Please add credits to your OpenRouter account."
      else
        "Access forbidden. Please check your API permissions.", 0⟩
  else if statusCode = 404 then
    ⟨false,
      if strContains (strToLower errorCode) "model" then
        "The requested AI model is not available. Please try a different model."
      else
        "The requested resource was not found.", 0⟩
  else if statusCode = 429 then
    ⟨true, "Rate limit exceeded. Please wait a moment before trying again.",
      retryAfter429 headers⟩
  else if statusCode = 400 then
    ⟨false,
      if (strToLower errorCode) = "invalid_request_error" then
        "Invalid request. Please check your input parameters."
      else if (strToLower errorCode) = "model_not_found" then
        "The specified AI model was not found. Please check the model name."
      else if (strToLower errorCode) = "context_length_exceeded" then
        "Your message is too long. Please try with a shorter message."
      else
        "Bad request. Please check your input and try again.", 0⟩
  else if statusCode = 500 then
    ⟨true,
      "OpenRouter service is temporarily unavailable. Please try again in a few moments.",
      0⟩
  else if statusCode = 502 then
    ⟨true, "OpenRouter gateway error. Please try again in a few moments.", 0⟩
  else if statusCode = 503 then
    ⟨true, "OpenRouter service is temporarily unavailable. Please try again later.",
      30000000000⟩
  else if statusCode = 504 then
    ⟨true, "Request timed out. Please try again.", 0⟩
  else if statusCode ≥ 500 then
    ⟨true, "OpenRouter service error. Please try again later.", 0⟩
  else if statusCode ≥ 400 then
    ⟨false, "Request error. Please check your input and try again.", 0⟩
  else
    ⟨false, "An unexpected error occurred.", 0⟩

/-- Go `categorizeError`: the status-code table followed by the lower-cased
error-type override `switch`.  Note that the `insufficient_quota` arm of the
source overwrites only `isRetryable` and `userMessage`, leaving whatever
`retryAfter` the table produced. -/
def categorizeError (statusCode : Nat) (errorCode errorType : String)
    (headers : Headers) : Classified :=
  if strToLower errorType = "insufficient_quota" then
    { statusTable statusCode errorCode headers with
      isRetryable := false
      userMessage := "Insufficient quota. Please check your OpenRouter account limits." }
  else if strToLower errorType = "model_overloaded" then
    ⟨true, "The AI model is currently overloaded. Please try again in a few moments.",
      30000000000⟩
  else if strToLower errorType = "model_unavailable" then
    ⟨true,
      "The AI model is temporarily unavailable. Please try a different model or wait a few moments.",
      60000000000⟩
  else statusTable statusCode errorCode headers

example : (categorizeError 429 "" "" []).retryAfter = 60000000000 := by decide
example : (categorizeError 429 "" "" [("Retry-After", "7")]).retryAfter = 7000000000 := by
  decide
example : (categorizeError 429 "" "" [("Retry-After", "0")]).retryAfter = 60000000000 := by
  decide
example : (categorizeError 429 "" "insufficient_quota" []).isRetryable = false := by
  decide
example : (categorizeError 503 "" "" []).retryAfter = 30000000000 := by decide
example : (categorizeError 404 "model_not_found" "" []).userMessage =
    "The requested AI model is not available. Please try a different model." := by decide

/-- Go `ErrorDetail` (the inner object of the provider error envelope).
The Go field `Type` is named `etype` here because `Type` is reserved in
Lean. -/
structure ErrorDetail where
  code : String
  message : String
  etype : String
  param : String
deriving DecidableEq, Repr

/-- Go `ErrorResponse`: the provider error envelope wrapping one
`ErrorDetail`. -/
structure ErrorResponse where
  errorDetail : ErrorDetail
deriving DecidableEq, Repr

/-- Go `OpenRouterError`.  `retryAfter` is nanoseconds; `originalErr`, when
present, is the message of the wrapped cause (the causes wrapped by this
package are always plain errors). -/
structure OpenRouterError where
  statusCode : Nat
  errorCode : String
  errorType : String
  message : String
  userMessage : String
  isRetryable : Bool
  retryAfter : Int
  originalErr : Option String
deriving DecidableEq, Repr

/-- A Go `error` value as this package sees it: either a `*OpenRouterError`
(the type assertion in `WithRetry`/`doRequest` succeeds) or any other,
plain, error carrying only its message. -/
inductive GoError where
  | structured (e : OpenRouterError)
  | plain (msg : String)
deriving DecidableEq, Repr

/-- Model of Go stdlib `http.StatusText`, restricted to the status codes
this package's table distinguishes (unknown codes give `""`, as in Go). -/
def statusText (code : Nat) : String :=
  if code = 400 then "Bad Request"
  else if code = 401 then "Unauthorized"
  else if code = 403 then "Forbidden"
  else if code = 404 then "Not Found"
  else if code = 429 then "Too Many Requests"
  else if code = 500 then "Internal Server Error"
  else if code = 502 then "Bad Gateway"
  else if code = 503 then "Service Unavailable"
  else if code = 504 then "Gateway Timeout"
  else ""

/-- Go `ParseError`: build an `OpenRouterError` from a response.  `envelope`
is the outcome of `json.Unmarshal(body, &errorResp)`; the envelope is used
only when it decoded and carries a non-empty message, otherwise the raw body
text, otherwise `http.StatusText`.  Then `categorizeError` fills the
retryability verdict. -/
def ParseError (statusCode : Nat) (headers : Headers) (body : String)
    (envelope : Option ErrorResponse) : OpenRouterError :=
  let fields : String × String × String :=
    match envelope with
    | some er =>
      if er.errorDetail.message ≠ "" then
        (er.errorDetail.code, er.errorDetail.etype, er.errorDetail.message)
      else
        ("", "", if body ≠ "" then body else statusText statusCode)
    | none => ("", "", if body ≠ "" then body else statusText statusCode)
  let c := categorizeError statusCode fields.1 fields.2.1 headers
  { statusCode := statusCode
    errorCode := fields.1
    errorType := fields.2.1
    message := fields.2.2
    userMessage := c.userMessage
    isRetryable := c.isRetryable
    retryAfter := c.retryAfter
    originalErr := none }

/-- Go `WrapNetworkError`: the structured wrapper for transport-level
failures, taking the original error's message. -/
def WrapNetworkError (errMsg : String) : OpenRouterError :=
  { statusCode := 0
    errorCode := "network_error"
    errorType := "network_error"
    message := errMsg
    userMessage := "Network error occurred. Please check your internet connection and try again."
    isRetryable := true
    retryAfter := 0
    originalErr := some errMsg }

/-- What one HTTP round trip in `doRequest` produced: either the transport
failed before any response (`httpClient.Do` returned an error), or a
response arrived with a status, headers and body.  `envelope` is the
outcome of `json.Unmarshal(body, &ErrorResponse)` (`none` when the body is
not a JSON object); `resultDecodeOk` is whether the success body decodes
into the caller's result type. -/
inductive FetchOutcome where
  | transportFailure (errMsg : String)
  | httpResponse (status : Nat) (headers : Headers) (body : String)
      (envelope : Option ErrorResponse) (resultDecodeOk : Bool)
deriving DecidableEq, Repr

/-- Go `Client.doRequest` (the logging-enabled variant the claims cite),
with logging dropped: on transport failure it returns the plain wrapped
error `request failed: ...` (the `WrapNetworkError` value built there goes
only to the logger); on status >= 400 it returns `ParseError`'s structured
error when the body unmarshal succeeded and otherwise the plain error
`HTTP <status>: <body>`; on success it returns `none`, or a plain decode
error. -/
def doRequest : FetchOutcome → Option GoError
  | .transportFailure errMsg =>
    some (.plain ("request failed: " ++ errMsg))
  | .httpResponse status headers body envelope resultDecodeOk =>
    if status ≥ 400 then
      match envelope with
      | none => some (.plain ("HTTP " ++ toString status ++ ": " ++ body))
      | some e => some (.structured (ParseError status headers body (some e)))
    else if resultDecodeOk then none
    else some (.plain "failed to unmarshal response")

example :
    doRequest (.httpResponse 502 [] "Bad Gateway" none true) =
      some (.plain "HTTP 502: Bad Gateway") := by decide
example :
    (ParseError 400 [] "irrelevant"
        (some ⟨⟨"invalid_request_error", "m", "invalid_request_error", ""⟩⟩)).message =
      "m" := by decide
example : (ParseError 503 [] "" none).message = "Service Unavailable" := by decide
example : doRequest (.transportFailure "connection refused") =
    some (.plain "request failed: connection refused") := by decide

/-- Go `RetryConfig`.  Delays are nanoseconds (`time.Duration`); the
`float64` factor is modelled as a rational. -/
structure RetryConfig where
  maxRetries : Int
  baseDelay : Int
  maxDelay : Int
  backoffFactor : ℚ
  jitterEnabled : Bool
deriving DecidableEq, Repr

/-- Go `DefaultRetryConfig()`: 3 retries, 1s base, 30s cap, factor 2,
jitter on. -/
def DefaultRetryConfig : RetryConfig :=
  { maxRetries := 3
    baseDelay := 1000000000
    maxDelay := 30000000000
    backoffFactor := 2
    jitterEnabled := true }

/-- Truncation toward zero, as Go's `time.Duration(floatValue)` conversion
rounds a float to an integer. -/
def ratTrunc (q : ℚ) : Int :=
  if q < 0 then ⌈q⌉ else ⌊q⌋

/-- Go `calculateDelay`: exponential backoff `baseDelay * factor^attempt`
capped at `maxDelay`, plus, when jitter is enabled, a perturbation
`delay * 0.1 * (2*rand - 1)` where `rand` models the `rand.Float64()`
draw. -/
def calculateDelay (attempt : Nat) (config : RetryConfig) (rand : ℚ) : Int :=
  let delay0 : ℚ := (config.baseDelay : ℚ) * config.backoffFactor ^ attempt
  let delay1 : ℚ :=
    if delay0 > (config.maxDelay : ℚ) then (config.maxDelay : ℚ) else delay0
  let delay2 : ℚ :=
    if config.jitterEnabled then delay1 + delay1 * (1 / 10) * (2 * rand - 1)
    else delay1
  ratTrunc delay2

/-- The caller's `context.Context`, as the retry loop observes it:
`doneAt k` is whether the cancellation signal is seen during the wait of
loop iteration `k` (the `select` picks `ctx.Done()`), and `err` is the
value of `ctx.Err()` then. -/
structure Ctx where
  doneAt : Nat → Bool
  err : GoError

/-- Observable outcome of one `WithRetry` run: the returned error (`none`
is a `nil` return), how many times the operation was invoked, how many
waits completed, and the completed waits' durations in order. -/
structure RetryOutcome where
  result : Option GoError
  calls : Nat
  waits : Nat
  delays : List Int
deriving DecidableEq, Repr

/-- The `for attempt := 0; attempt <= config.MaxRetries` loop of Go
`WithRetry`, with `fuel` the number of iterations still to come after the
current one (`fuel = 0` is the final iteration, where
`attempt == config.MaxRetries` breaks out before any retry logic).
`fn k` is the result of the operation's `k`-th invocation (`none` =
success), `rand k` the jitter draw of iteration `k`.  In each non-final
failing iteration: a non-retryable structured error returns at once; a
structured error with positive `RetryAfter` waits that long; anything else
waits the computed backoff; a cancellation observed during either wait
returns `ctx.Err()`. -/
def withRetryLoop (ctx : Ctx) (config : RetryConfig)
    (fn : Nat → Option GoError) (rand : Nat → ℚ) (attempt : Nat) :
    Nat → RetryOutcome
  | 0 =>
    match fn attempt with
    | none => ⟨none, 1, 0, []⟩
    | some e => ⟨some e, 1, 0, []⟩
  | fuel + 1 =>
    match fn attempt with
    | none => ⟨none, 1, 0, []⟩
    | some e =>
      let waitThen : Int → RetryOutcome := fun delay =>
        if ctx.doneAt attempt then ⟨some ctx.err, 1, 0, []⟩
        else
          let rest := withRetryLoop ctx config fn rand (attempt + 1) fuel
          ⟨rest.result, rest.calls + 1, rest.waits + 1, delay :: rest.delays⟩
      match e with
      | .structured oe =>
        if oe.isRetryable = false then ⟨some e, 1, 0, []⟩
        else if 0 < oe.retryAfter then waitThen oe.retryAfter
        else waitThen (calculateDelay attempt config (rand attempt))
      | .plain _ => waitThen (calculateDelay attempt config (rand attempt))

/-- Go `WithRetry` (logging dropped; the logger has no observable effect):
a `nil` config is replaced by the defaults; a negative `MaxRetries` makes
the loop body run zero times, returning the initial `nil` `lastErr`. -/
def WithRetry (ctx : Ctx) (config : Option RetryConfig)
    (fn : Nat → Option GoError) (rand : Nat → ℚ) : RetryOutcome :=
  let cfg := config.getD DefaultRetryConfig
  if cfg.maxRetries < 0 then ⟨none, 0, 0, []⟩
  else withRetryLoop ctx cfg fn rand 0 cfg.maxRetries.toNat

/-- Sanity inputs used by the examples below. -/
def ctxNever : Ctx := ⟨fun _ => false, .plain "context canceled"⟩

def errRetryable : OpenRouterError :=
  ⟨500, "internal_error", "server_error", "boom", "", true, 0, none⟩

def errFatal : OpenRouterError :=
  ⟨401, "invalid_api_key", "authentication_error", "no", "", false, 0, none⟩

def cfgSmall : RetryConfig := ⟨2, 1000000000, 30000000000, 2, false⟩

example :
    (WithRetry ctxNever (some cfgSmall)
        (fun _ => some (.structured errRetryable)) (fun _ => 0)).calls = 3 := by
  decide
example :
    (WithRetry ctxNever (some cfgSmall)
        (fun _ => some (.structured errFatal)) (fun _ => 0)).calls = 1 := by
  decide
example :
    (WithRetry ctxNever (some ⟨-1, 0, 0, 1, false⟩)
        (fun _ => some (.structured errFatal)) (fun _ => 0)).calls = 0 := by
  decide
example :
    (WithRetry ⟨fun k => decide (k = 1), .plain "context deadline exceeded"⟩
        (some cfgSmall) (fun _ => some (.structured errRetryable))
        (fun _ => 0)).result = some (.plain "context deadline exceeded") := by
  decide
example :
    (WithRetry ctxNever (some cfgSmall)
        (fun k => if k < 2 then some (.plain "x") else none) (fun _ => 0)).calls =
      3 := by decide
example : calculateDelay 3 ⟨5, 100000000, 1000000000, 2, false⟩ 0 = 800000000 := by
  norm_num [calculateDelay, ratTrunc]
example : calculateDelay 4 ⟨5, 100000000, 1000000000, 2, false⟩ 0 = 1000000000 := by
  norm_num [calculateDelay, ratTrunc]

set_option maxHeartbeats 1600000 in
/-- Helper: the status-code table on its own already maintains the
invariant that a positive suggested delay only accompanies a retryable
verdict (only the 429 and 503 arms set one). -/
theorem statusTable_retryAfter_retryable (s : Nat) (ec : String) (h : Headers) :
    0 < (statusTable s ec h).retryAfter → (statusTable s ec h).isRetryable = true := by
  simp only [statusTable, apply_ite Classified.retryAfter,
    apply_ite Classified.isRetryable]
  split_ifs <;> simp

/-- C1: the claimed invariant `retryAfter > 0 → isRetryable` fails on the
code: a 429 response whose error type is `insufficient_quota` keeps the
60s `retryAfter` installed by the 429 table arm while the override forces
`isRetryable = false`. -/
theorem c1_counterexample :
    0 < (categorizeError 429 "" "insufficient_quota" []).retryAfter ∧
    (categorizeError 429 "" "insufficient_quota" []).isRetryable = false := by
  decide

/-- Helper: the classifier keeps the invariant up to the quota override:
a positive `retryAfter` implies a retryable verdict unless the lower-cased
error type is `insufficient_quota`. -/
theorem categorize_pos_retryAfter (s : Nat) (ec et : String) (h : Headers)
    (hpos : 0 < (categorizeError s ec et h).retryAfter) :
    (categorizeError s ec et h).isRetryable = true ∨
      strToLower et = "insufficient_quota" := by
  unfold categorizeError at hpos ⊢
  split_ifs at hpos ⊢ with h1 h2 h3
  · exact Or.inr h1
  · exact Or.inl rfl
  · exact Or.inl rfl
  · exact Or.inl (statusTable_retryAfter_retryable s ec h hpos)

/-- C1 (amended): for every classifier input, and hence for every
structured error built by `ParseError`, a positive `retryAfter` implies
`isRetryable = true` unless the lower-cased error type is
`insufficient_quota` (whose override forces non-retryability without
clearing the table's `retryAfter`). -/
theorem c1_retryAfter_implies_retryable (s : Nat) (ec et : String)
    (h : Headers) (body : String) (env : Option ErrorResponse) :
    (0 < (categorizeError s ec et h).retryAfter →
      (categorizeError s ec et h).isRetryable = true ∨
        strToLower et = "insufficient_quota") ∧
    (0 < (ParseError s h body env).retryAfter →
      (ParseError s h body env).isRetryable = true ∨
        strToLower (ParseError s h body env).errorType =
          "insufficient_quota") := by
  constructor
  · exact categorize_pos_retryAfter s ec et h
  · intro hpos
    simp only [ParseError] at hpos ⊢
    exact categorize_pos_retryAfter s _ _ h hpos

/-- C1 witness: concrete application at a 503 response. -/
theorem c1_witness :
    (categorizeError 503 "" "" []).isRetryable = true ∨
      strToLower "" = "insufficient_quota" :=
  (c1_retryAfter_implies_retryable 503 "" "" [] "" none).1 (by decide)

/-- C6: the error-type override pass of the classifier wins for every
status code, error code and header set: `insufficient_quota` forces
non-retryable with the quota message; `model_overloaded` forces retryable
with a 30s delay and the overload message; `model_unavailable` forces
retryable with a 60s delay and the unavailable message (all matched on the
lower-cased error type). -/
theorem c6_error_type_override_wins (s : Nat) (ec et : String) (h : Headers) :
    (strToLower et = "insufficient_quota" →
      (categorizeError s ec et h).isRetryable = false ∧
      (categorizeError s ec et h).userMessage =
        "Insufficient quota. Please check your OpenRouter account limits.") ∧
    (strToLower et = "model_overloaded" →
      (categorizeError s ec et h).isRetryable = true ∧
      (categorizeError s ec et h).retryAfter = 30000000000 ∧
      (categorizeError s ec et h).userMessage =
        "The AI model is currently overloaded. Please try again in a few moments.") ∧
    (strToLower et = "model_unavailable" →
      (categorizeError s ec et h).isRetryable = true ∧
      (categorizeError s ec et h).retryAfter = 60000000000 ∧
      (categorizeError s ec et h).userMessage =
        "The AI model is temporarily unavailable. Please try a different model or wait a few moments.") := by
  refine ⟨fun hq => ?_, fun ho => ?_, fun hu => ?_⟩
  · simp [categorizeError, hq]
  · simp [categorizeError, ho]
  · simp [categorizeError, hu]

/-- C6 witness: concrete application, checking that the match is on the
lower-cased error type (mixed-case input) at a non-tabled status code. -/
theorem c6_witness :
    (categorizeError 418 "" "Model_Overloaded" []).isRetryable = true ∧
    (categorizeError 418 "" "Model_Overloaded" []).retryAfter = 30000000000 ∧
    (categorizeError 418 "" "Model_Overloaded" []).userMessage =
      "The AI model is currently overloaded. Please try again in a few moments." :=
  (c6_error_type_override_wins 418 "" "Model_Overloaded" []).2.1 (by decide)

/-- Helper: when the `Retry-After` header parses (in range) to an integer
`n` whose wrapped duration product is nonzero, the 429 arm uses that
wrapped product. -/
theorem retryAfter429_parsed (h : Headers) (n : Int)
    (hn : Atoi (headerGet h "Retry-After") = some n)
    (h0 : wrap64 (n * 1000000000) ≠ 0) :
    retryAfter429 h = wrap64 (n * 1000000000) := by
  have hne : headerGet h "Retry-After" ≠ "" := by
    intro he
    rw [he] at hn
    simp [Atoi] at hn
  simp only [retryAfter429, hne, hn, if_true, ne_eq, not_false_iff, ite_true]
  exact if_neg h0

/-- Helper: when the `Retry-After` header is absent, unparseable (including
out-of-int64-range), or parses to a value whose wrapped duration product is
zero, the 429 arm defaults to 60 seconds. -/
theorem retryAfter429_default (h : Headers)
    (hd : headerGet h "Retry-After" = "" ∨
      Atoi (headerGet h "Retry-After") = none ∨
      (∃ n, Atoi (headerGet h "Retry-After") = some n ∧
        wrap64 (n * 1000000000) = 0)) :
    retryAfter429 h = 60000000000 := by
  rcases hd with he | hn | ⟨n, hn, h0⟩
  · simp [retryAfter429, he]
  · simp only [retryAfter429, hn]
    split_ifs <;> simp_all
  · simp only [retryAfter429, hn, h0]
    split_ifs <;> simp_all

/-- C7: the claim fails on the code at four concrete 429 inputs: with error
type `insufficient_quota` and header `Retry-After: 0` the verdict is
non-retryable (claim: retryable) with `retryAfter` 60s (claim: the parsed
0s); with error type `model_overloaded` or `model_unavailable` and header
`Retry-After: 7` the override replaces `retryAfter` with 30s resp. 60s
(claim: 7s); and with header `Retry-After: 9223372037` the int64 product
`time.Duration(9223372037) * time.Second` wraps to a negative duration
(claim: +9223372037s). -/
theorem c7_counterexample :
    ((categorizeError 429 "" "insufficient_quota"
        [("Retry-After", "0")]).isRetryable = false ∧
      (categorizeError 429 "" "insufficient_quota"
        [("Retry-After", "0")]).retryAfter = 60000000000) ∧
    (categorizeError 429 "" "model_overloaded"
        [("Retry-After", "7")]).retryAfter = 30000000000 ∧
    (categorizeError 429 "" "model_unavailable"
        [("Retry-After", "7")]).retryAfter = 60000000000 ∧
    (categorizeError 429 "" ""
        [("Retry-After", "9223372037")]).retryAfter = -9223372036709551616 := by
  decide

/-- C7 (amended): for every 429 input whose lower-cased error type is not
one of the three override types, the classifier returns
`isRetryable = true`, `retryAfter` equal to
`time.Duration(n) * time.Second` — the header's integer-seconds value
times 10^9 under wrapping int64 arithmetic — whenever `Retry-After` parses
as an in-range int64 `n` with nonzero wrapped product, and 60s when the
header is absent, unparseable, out of range, or the wrapped product is
zero. -/
theorem c7_429_rate_limit (ec et : String) (h : Headers)
    (hq : strToLower et ≠ "insufficient_quota")
    (ho : strToLower et ≠ "model_overloaded")
    (hu : strToLower et ≠ "model_unavailable") :
    (categorizeError 429 ec et h).isRetryable = true ∧
    (∀ n : Int, Atoi (headerGet h "Retry-After") = some n →
      wrap64 (n * 1000000000) ≠ 0 →
      (categorizeError 429 ec et h).retryAfter = wrap64 (n * 1000000000)) ∧
    ((headerGet h "Retry-After" = "" ∨
        Atoi (headerGet h "Retry-After") = none ∨
        (∃ n, Atoi (headerGet h "Retry-After") = some n ∧
          wrap64 (n * 1000000000) = 0)) →
      (categorizeError 429 ec et h).retryAfter = 60000000000) := by
  have hbase : categorizeError 429 ec et h = statusTable 429 ec h := by
    simp [categorizeError, hq, ho, hu]
  have htab : statusTable 429 ec h =
      ⟨true, "Rate limit exceeded. Please wait a moment before trying again.",
        retryAfter429 h⟩ := by
    simp [statusTable]
  refine ⟨?_, ?_, ?_⟩
  · rw [hbase, htab]
  · intro n hn h0
    rw [hbase, htab]
    exact retryAfter429_parsed h n hn h0
  · intro hd
    rw [hbase, htab]
    exact retryAfter429_default h hd

/-- C7 witness: header `Retry-After: 60` gives the wrapped product, which
evaluates to 60s; no header gives the 60s default. -/
theorem c7_witness :
    (categorizeError 429 "" "" [("Retry-After", "60")]).retryAfter =
      wrap64 (60 * 1000000000) ∧
    (categorizeError 429 "" "" []).retryAfter = 60000000000 ∧
    (categorizeError 429 "" "" [("Retry-After", "60")]).isRetryable = true ∧
    wrap64 (60 * 1000000000) = 60000000000 :=
  ⟨(c7_429_rate_limit "" "" [("Retry-After", "60")] (by decide) (by decide)
      (by decide)).2.1 60 (by decide) (by decide),
   (c7_429_rate_limit "" "" [] (by decide) (by decide) (by decide)).2.2
      (Or.inl (by decide)),
   (c7_429_rate_limit "" "" [("Retry-After", "60")] (by decide) (by decide)
      (by decide)).1,
   by decide⟩

/-- C2: on a transport-level failure, `doRequest` returns the plain
wrapped error `request failed: ...`, not a Structured Error.  The
`WrapNetworkError` value (shown in the remaining conjuncts to carry
exactly the fields the claim requires) is built in that branch of the
source only as a logging argument and is never returned. -/
theorem c2_transport_failure_plain (m : String) :
    doRequest (.transportFailure m) = some (.plain ("request failed: " ++ m)) ∧
    (WrapNetworkError m).statusCode = 0 ∧
    (WrapNetworkError m).errorCode = "network_error" ∧
    (WrapNetworkError m).isRetryable = true ∧
    (WrapNetworkError m).originalErr = some m :=
  ⟨rfl, rfl, rfl, rfl, rfl⟩

/-- C3: the claim fails on the code: a 502 response whose body
`Bad Gateway` is not a JSON object makes `doRequest` return the plain
error `HTTP 502: Bad Gateway`, not the Structured Error that `ParseError`
would have produced. -/
theorem c3_counterexample :
    doRequest (.httpResponse 502 [] "Bad Gateway" none true) =
      some (.plain "HTTP 502: Bad Gateway") ∧
    doRequest (.httpResponse 502 [] "Bad Gateway" none true) ≠
      some (.structured (ParseError 502 [] "Bad Gateway" none)) := by
  decide

/-- C3 (amended): on every status >= 400 the call fails (a success is never
returned): when the body unmarshals as the error envelope the failure is
the Structured Error built by `ParseError` — whose message comes from the
envelope when non-empty, else the body text, else the HTTP status text —
and when the body does not unmarshal the failure is the plain error
`HTTP <status>: <body>`. -/
theorem c3_http_error_handling (s : Nat) (hs : 400 ≤ s) (h : Headers)
    (b : String) (env : Option ErrorResponse) (rdec : Bool) :
    doRequest (.httpResponse s h b env rdec) ≠ none ∧
    (env = none →
      doRequest (.httpResponse s h b env rdec) =
        some (.plain ("HTTP " ++ toString s ++ ": " ++ b))) ∧
    (∀ e, env = some e →
      doRequest (.httpResponse s h b env rdec) =
        some (.structured (ParseError s h b (some e))) ∧
      (e.errorDetail.message ≠ "" →
        (ParseError s h b (some e)).message = e.errorDetail.message) ∧
      (e.errorDetail.message = "" → b ≠ "" →
        (ParseError s h b (some e)).message = b) ∧
      (e.errorDetail.message = "" → b = "" →
        (ParseError s h b (some e)).message = statusText s)) := by
  have hge : s ≥ 400 := hs
  refine ⟨?_, ?_, ?_⟩
  · cases env <;> simp [doRequest, hge]
  · intro he
    subst he
    simp [doRequest, hge]
  · intro e he
    subst he
    refine ⟨by simp [doRequest, hge], fun hm => ?_, fun hm hb => ?_,
      fun hm hb => ?_⟩
    · simp [ParseError, hm]
    · simp [ParseError, hm, hb]
    · simp [ParseError, hm, hb]

/-- C3 witness: concrete applications of the two failure shapes. -/
theorem c3_witness :
    doRequest (.httpResponse 404 [] "nope" none true) =
      some (.plain ("HTTP " ++ toString 404 ++ ": " ++ "nope")) ∧
    (ParseError 400 []
        "ignored" (some ⟨⟨"invalid_request_error", "m", "invalid_request_error", ""⟩⟩)).message =
      "m" :=
  ⟨(c3_http_error_handling 404 (by decide) [] "nope" none true).2.1 rfl,
   ((c3_http_error_handling 400 (by decide) [] "ignored"
      (some ⟨⟨"invalid_request_error", "m", "invalid_request_error", ""⟩⟩)
      true).2.2 _ rfl).2.1 (by decide)⟩

/-- A failure the retry loop will wait and retry on: any plain error, or a
structured error whose `IsRetryable` flag is set. -/
def retryableFailure : Option GoError → Prop
  | some (.structured oe) => oe.isRetryable = true
  | some (.plain _) => True
  | none => False

/-- Helper: when every invocation fails with a retryable structured error
and cancellation never fires, the loop runs through all its fuel, making
`fuel + 1` calls and returning the last invocation's failure. -/
theorem withRetryLoop_allFail (ctx : Ctx) (cfg : RetryConfig)
    (fn : Nat → Option GoError) (rand : Nat → ℚ)
    (hf : ∀ k, ∃ oe, fn k = some (.structured oe) ∧ oe.isRetryable = true)
    (hc : ∀ k, ctx.doneAt k = false) :
    ∀ (fuel a : Nat),
      (withRetryLoop ctx cfg fn rand a fuel).calls = fuel + 1 ∧
      (withRetryLoop ctx cfg fn rand a fuel).result = fn (a + fuel) := by
  intro fuel
  induction fuel with
  | zero =>
    intro a
    obtain ⟨oe, h1, _⟩ := hf a
    simp [withRetryLoop, h1]
  | succ n ih =>
    intro a
    obtain ⟨oe, h1, h2⟩ := hf a
    obtain ⟨ihc, ihr⟩ := ih (a + 1)
    have hidx : a + 1 + n = a + (n + 1) := by omega
    rw [hidx] at ihr
    refine ⟨?_, ?_⟩ <;>
      simp [withRetryLoop, h1, h2, hc a, apply_ite RetryOutcome.calls,
        apply_ite RetryOutcome.result, ihc, ihr]

/-- C4: with `maxRetries >= 0`, an operation failing on every invocation
with a retryable structured error, and cancellation never firing, the
executor invokes the operation exactly `1 + maxRetries` times and returns
the failure of the final invocation. -/
theorem c4_always_failing_exhausts_attempts (cfg : RetryConfig) (ctx : Ctx)
    (fn : Nat → Option GoError) (rand : Nat → ℚ)
    (hm : 0 ≤ cfg.maxRetries)
    (hf : ∀ k, ∃ oe, fn k = some (.structured oe) ∧ oe.isRetryable = true)
    (hc : ∀ k, ctx.doneAt k = false) :
    (WithRetry ctx (some cfg) fn rand).calls = cfg.maxRetries.toNat + 1 ∧
    (WithRetry ctx (some cfg) fn rand).result = fn cfg.maxRetries.toNat := by
  have hneg : ¬ cfg.maxRetries < 0 := not_lt.mpr hm
  simp only [WithRetry, Option.getD_some, hneg, if_false]
  have := withRetryLoop_allFail ctx cfg fn rand hf hc cfg.maxRetries.toNat 0
  simpa using this

/-- C4 witness: three calls for `maxRetries = 2`, last failure returned. -/
theorem c4_witness :
    (WithRetry ctxNever (some cfgSmall)
        (fun _ => some (.structured errRetryable)) (fun _ => 0)).calls =
      cfgSmall.maxRetries.toNat + 1 ∧
    (WithRetry ctxNever (some cfgSmall)
        (fun _ => some (.structured errRetryable)) (fun _ => 0)).result =
      some (.structured errRetryable) :=
  c4_always_failing_exhausts_attempts cfgSmall ctxNever
    (fun _ => some (.structured errRetryable)) (fun _ => 0) (by decide)
    (fun _ => ⟨errRetryable, rfl, rfl⟩) (fun _ => rfl)

/-- Fixed inputs for the C9 counterexample. -/
def cfgNeg : RetryConfig := ⟨-1, 1000000000, 30000000000, 2, false⟩

/-- C9: the claim fails on the code for a configuration with
`MaxRetries = -1`: the loop body never runs, so the operation — although
it would fail with a non-retryable structured error — is invoked zero
times (not once) and `nil` is returned instead of its error. -/
theorem c9_counterexample :
    (WithRetry ctxNever (some cfgNeg)
        (fun _ => some (.structured errFatal)) (fun _ => 0)).calls = 0 ∧
    (WithRetry ctxNever (some cfgNeg)
        (fun _ => some (.structured errFatal)) (fun _ => 0)).result = none := by
  decide

/-- C9 (amended): for every configuration with `maxRetries >= 0`, an
operation whose first invocation fails with a non-retryable structured
error is invoked exactly once; its error is returned at once, with no
waits. -/
theorem c9_nonretryable_invoked_once (cfg : RetryConfig) (ctx : Ctx)
    (fn : Nat → Option GoError) (rand : Nat → ℚ) (oe : OpenRouterError)
    (hm : 0 ≤ cfg.maxRetries)
    (h0 : fn 0 = some (.structured oe))
    (hnr : oe.isRetryable = false) :
    (WithRetry ctx (some cfg) fn rand).result = some (.structured oe) ∧
    (WithRetry ctx (some cfg) fn rand).calls = 1 ∧
    (WithRetry ctx (some cfg) fn rand).waits = 0 ∧
    (WithRetry ctx (some cfg) fn rand).delays = [] := by
  have hneg : ¬ cfg.maxRetries < 0 := not_lt.mpr hm
  simp only [WithRetry, Option.getD_some, hneg, if_false]
  cases hfuel : cfg.maxRetries.toNat with
  | zero => simp [withRetryLoop, h0]
  | succ n => simp [withRetryLoop, h0, hnr]

/-- C9 witness: one call for a non-retryable first failure under
`maxRetries = 2`. -/
theorem c9_witness :
    (WithRetry ctxNever (some cfgSmall)
        (fun _ => some (.structured errFatal)) (fun _ => 0)).result =
      some (.structured errFatal) ∧
    (WithRetry ctxNever (some cfgSmall)
        (fun _ => some (.structured errFatal)) (fun _ => 0)).calls = 1 ∧
    (WithRetry ctxNever (some cfgSmall)
        (fun _ => some (.structured errFatal)) (fun _ => 0)).waits = 0 ∧
    (WithRetry ctxNever (some cfgSmall)
        (fun _ => some (.structured errFatal)) (fun _ => 0)).delays = [] :=
  c9_nonretryable_invoked_once cfgSmall ctxNever
    (fun _ => some (.structured errFatal)) (fun _ => 0) errFatal (by decide)
    rfl rfl

/-- C10: a non-nil configuration with negative `MaxRetries` makes the loop
body run zero times: zero invocations, zero waits, and a `nil` (success)
return. -/
theorem c10_negative_max_retries_skips_loop (cfg : RetryConfig) (ctx : Ctx)
    (fn : Nat → Option GoError) (rand : Nat → ℚ)
    (hm : cfg.maxRetries < 0) :
    WithRetry ctx (some cfg) fn rand = ⟨none, 0, 0, []⟩ := by
  simp [WithRetry, hm]

/-- C10 witness: concrete run at `MaxRetries = -2`. -/
theorem c10_witness :
    WithRetry ctxNever (some ⟨-2, 1000000000, 30000000000, 2, true⟩)
      (fun _ => some (.plain "boom")) (fun _ => 0) = ⟨none, 0, 0, []⟩ :=
  c10_negative_max_retries_skips_loop ⟨-2, 1000000000, 30000000000, 2, true⟩
    ctxNever (fun _ => some (.plain "boom")) (fun _ => 0) (by decide)

/-- Helper: if the first `j` iterations fail retryably and wait without
seeing cancellation, and the cancellation signal is observed during the
wait of iteration `j` (still before the final iteration), the loop aborts
there, returning `ctx.Err()` after `j + 1` calls. -/
theorem withRetryLoop_cancelled (ctx : Ctx) (cfg : RetryConfig)
    (fn : Nat → Option GoError) (rand : Nat → ℚ) :
    ∀ (j fuel a : Nat), j < fuel →
      (∀ i, i ≤ j → retryableFailure (fn (a + i))) →
      (∀ i, i < j → ctx.doneAt (a + i) = false) →
      ctx.doneAt (a + j) = true →
      (withRetryLoop ctx cfg fn rand a fuel).result = some ctx.err ∧
      (withRetryLoop ctx cfg fn rand a fuel).calls = j + 1 := by
  intro j
  induction j with
  | zero =>
    intro fuel a hj hf hc1 hc2
    obtain ⟨n, rfl⟩ : ∃ n, fuel = n + 1 := ⟨fuel - 1, by omega⟩
    have hf0 := hf 0 (Nat.le_refl 0)
    rw [Nat.add_zero] at hf0 hc2
    cases hfa : fn a with
    | none => simp [retryableFailure, hfa] at hf0
    | some e =>
      cases e with
      | plain m =>
        refine ⟨?_, ?_⟩ <;> simp [withRetryLoop, hfa, hc2]
      | structured oe =>
        have hret : oe.isRetryable = true := by
          simpa [retryableFailure, hfa] using hf0
        refine ⟨?_, ?_⟩ <;>
          simp [withRetryLoop, hfa, hret, hc2,
            apply_ite RetryOutcome.result, apply_ite RetryOutcome.calls]
  | succ k ih =>
    intro fuel a hj hf hc1 hc2
    obtain ⟨n, rfl⟩ : ∃ n, fuel = n + 1 := ⟨fuel - 1, by omega⟩
    have hf0 := hf 0 (Nat.zero_le _)
    rw [Nat.add_zero] at hf0
    have hd0 : ctx.doneAt a = false := by
      have := hc1 0 (Nat.succ_pos k)
      rwa [Nat.add_zero] at this
    have hidx : a + (k + 1) = a + 1 + k := by omega
    rw [hidx] at hc2
    obtain ⟨ihr, ihc⟩ := ih n (a + 1) (by omega)
      (fun i hi => by
        have := hf (i + 1) (by omega)
        have e1 : a + (i + 1) = a + 1 + i := by omega
        rwa [e1] at this)
      (fun i hi => by
        have := hc1 (i + 1) (by omega)
        have e1 : a + (i + 1) = a + 1 + i := by omega
        rwa [e1] at this)
      hc2
    cases hfa : fn a with
    | none => simp [retryableFailure, hfa] at hf0
    | some e =>
      cases e with
      | plain m =>
        refine ⟨?_, ?_⟩ <;> simp [withRetryLoop, hfa, hd0, ihr, ihc]
      | structured oe =>
        have hret : oe.isRetryable = true := by
          simpa [retryableFailure, hfa] using hf0
        refine ⟨?_, ?_⟩ <;>
          simp [withRetryLoop, hfa, hret, hd0, ihr, ihc,
            apply_ite RetryOutcome.result, apply_ite RetryOutcome.calls]

/-- C5: if every invocation up to iteration `j` fails retryably (plain or
structured-retryable), no cancellation is observed before iteration `j`'s
wait — whether that wait is a server-suggested `retryAfter` wait or a
computed backoff wait — and the cancellation signal fires during it (with
`j` before the final attempt), the executor returns the cancellation
condition `ctx.Err()`, not the last operation failure, after `j + 1`
calls. -/
theorem c5_cancellation_mid_wait_aborts (cfg : RetryConfig) (ctx : Ctx)
    (fn : Nat → Option GoError) (rand : Nat → ℚ) (j : Nat)
    (hj : (j : Int) < cfg.maxRetries)
    (hf : ∀ i, i ≤ j → retryableFailure (fn i))
    (hc1 : ∀ i, i < j → ctx.doneAt i = false)
    (hc2 : ctx.doneAt j = true) :
    (WithRetry ctx (some cfg) fn rand).result = some ctx.err ∧
    (WithRetry ctx (some cfg) fn rand).calls = j + 1 := by
  have hneg : ¬ cfg.maxRetries < 0 := by omega
  have hjf : j < cfg.maxRetries.toNat := by omega
  simp only [WithRetry, Option.getD_some, hneg, if_false]
  exact withRetryLoop_cancelled ctx cfg fn rand j cfg.maxRetries.toNat 0 hjf
    (fun i hi => by simpa using hf i hi)
    (fun i hi => by simpa using hc1 i hi)
    (by simpa using hc2)

/-- Context whose cancellation signal is observed during the first wait. -/
def ctxCancelFirst : Ctx :=
  ⟨fun k => decide (k = 0), .plain "context deadline exceeded"⟩

/-- C5 witness: the context fires during the first wait; the executor
returns the context's error after a single call, although the operation
would have kept failing retryably. -/
theorem c5_witness :
    (WithRetry ctxCancelFirst (some cfgSmall)
        (fun _ => some (.structured errRetryable)) (fun _ => 0)).result =
      some (.plain "context deadline exceeded") ∧
    (WithRetry ctxCancelFirst (some cfgSmall)
        (fun _ => some (.structured errRetryable)) (fun _ => 0)).calls = 1 :=
  c5_cancellation_mid_wait_aborts cfgSmall ctxCancelFirst
    (fun _ => some (.structured errRetryable)) (fun _ => 0) 0 (by decide)
    (fun i hi => by
      have : i = 0 := Nat.le_zero.mp hi
      subst this
      exact rfl)
    (fun i hi => absurd hi (Nat.not_lt_zero i))
    rfl

/-- Truncation toward zero is monotone. -/
theorem ratTrunc_mono {a b : ℚ} (h : a ≤ b) : ratTrunc a ≤ ratTrunc b := by
  unfold ratTrunc
  split_ifs with ha hb hb
  · exact Int.ceil_mono h
  · calc ⌈a⌉ ≤ 0 := Int.ceil_le.mpr (by exact_mod_cast le_of_lt ha)
      _ ≤ ⌊b⌋ := Int.floor_nonneg.mpr (not_lt.mp hb)
  · exact absurd (h.trans_lt hb) ha
  · exact Int.floor_mono h

/-- Truncation is the identity on integers. -/
theorem ratTrunc_intCast (m : Int) : ratTrunc (m : ℚ) = m := by
  unfold ratTrunc
  split_ifs with h
  · exact Int.ceil_intCast m
  · exact Int.floor_intCast m

/-- Truncation of a value below an integer stays below it. -/
theorem ratTrunc_le_intCast {q : ℚ} {m : Int} (h : q ≤ (m : ℚ)) :
    ratTrunc q ≤ m := by
  have := ratTrunc_mono h
  rwa [ratTrunc_intCast] at this

/-- Helper: with jitter disabled, the cap branch of `calculateDelay` is
exactly a minimum. -/
theorem calculateDelay_eq_min (cfg : RetryConfig) (n : Nat) (rand : ℚ)
    (hj : cfg.jitterEnabled = false) :
    calculateDelay n cfg rand =
      ratTrunc (min ((cfg.baseDelay : ℚ) * cfg.backoffFactor ^ n)
        (cfg.maxDelay : ℚ)) := by
  unfold calculateDelay
  simp only [hj, Bool.false_eq_true, if_false]
  congr 1
  split_ifs with h
  · exact (min_eq_right (le_of_lt h)).symm
  · exact (min_eq_left (not_lt.mp h)).symm

/-- Helper: with jitter disabled, a nonnegative base and a factor of at
least one, the delay sequence is non-decreasing and capped by
`maxDelay`. -/
theorem calculateDelay_mono_capped (cfg : RetryConfig) (n : Nat) (rand : ℚ)
    (hj : cfg.jitterEnabled = false) (hb : 0 ≤ cfg.baseDelay)
    (hf : 1 ≤ cfg.backoffFactor) :
    calculateDelay n cfg rand ≤ calculateDelay (n + 1) cfg rand ∧
    calculateDelay n cfg rand ≤ cfg.maxDelay := by
  rw [calculateDelay_eq_min cfg n rand hj, calculateDelay_eq_min cfg (n + 1) rand hj]
  constructor
  · apply ratTrunc_mono
    apply min_le_min _ (le_refl _)
    apply mul_le_mul_of_nonneg_left _ (by exact_mod_cast hb)
    exact pow_le_pow_right₀ hf (Nat.le_succ n)
  · exact ratTrunc_le_intCast (min_le_right _ _)

/-- The configuration of the spec's worked example: base 100ms, factor 2.0,
cap 1s, jitter off. -/
def exampleCfg : RetryConfig := ⟨5, 100000000, 1000000000, 2, false⟩

/-- C8: with jitter disabled the computed delay equals
`min(baseDelay * backoffFactor^n, maxDelay)` (truncated to a duration, as
the Go float-to-`time.Duration` conversion does); for `baseDelay >= 0` and
`backoffFactor >= 1` the sequence is non-decreasing and never exceeds
`maxDelay`; and the worked example base=100ms, factor=2.0, max=1s yields
100ms, 200ms, 400ms, 800ms, 1s, 1s for attempts 0..5. -/
theorem c8_backoff_formula_monotone_capped :
    (∀ (cfg : RetryConfig) (n : Nat) (rand : ℚ), cfg.jitterEnabled = false →
      calculateDelay n cfg rand =
        ratTrunc (min ((cfg.baseDelay : ℚ) * cfg.backoffFactor ^ n)
          (cfg.maxDelay : ℚ))) ∧
    (∀ (cfg : RetryConfig) (n : Nat) (rand : ℚ), cfg.jitterEnabled = false →
      0 ≤ cfg.baseDelay → 1 ≤ cfg.backoffFactor →
      calculateDelay n cfg rand ≤ calculateDelay (n + 1) cfg rand ∧
      calculateDelay n cfg rand ≤ cfg.maxDelay) ∧
    (calculateDelay 0 exampleCfg 0 = 100000000 ∧
      calculateDelay 1 exampleCfg 0 = 200000000 ∧
      calculateDelay 2 exampleCfg 0 = 400000000 ∧
      calculateDelay 3 exampleCfg 0 = 800000000 ∧
      calculateDelay 4 exampleCfg 0 = 1000000000 ∧
      calculateDelay 5 exampleCfg 0 = 1000000000) := by
  refine ⟨calculateDelay_eq_min, calculateDelay_mono_capped,
    ?_, ?_, ?_, ?_, ?_, ?_⟩ <;>
    norm_num [calculateDelay, ratTrunc, exampleCfg]

/-- C8 witness: concrete applications of the formula and the bounds. -/
theorem c8_witness :
    calculateDelay 2 exampleCfg 0 ≤ exampleCfg.maxDelay ∧
    calculateDelay 2 exampleCfg 0 ≤ calculateDelay 3 exampleCfg 0 ∧
    calculateDelay 1 exampleCfg 0 =
      ratTrunc (min ((exampleCfg.baseDelay : ℚ) * exampleCfg.backoffFactor ^ 1)
        (exampleCfg.maxDelay : ℚ)) :=
  ⟨(c8_backoff_formula_monotone_capped.2.1 exampleCfg 2 0 rfl (by norm_num [exampleCfg])
      (by norm_num [exampleCfg])).2,
   (c8_backoff_formula_monotone_capped.2.1 exampleCfg 2 0 rfl (by norm_num [exampleCfg])
      (by norm_num [exampleCfg])).1,
   c8_backoff_formula_monotone_capped.1 exampleCfg 1 0 rfl⟩
